import Mathlib

/-!
Verification of `pypandoc/pandoc_download.py`.

The module is a one-shot provisioning utility: it resolves a platform-specific
download URL for a pandoc release, downloads the archive unless it is already
present in the working directory, creates the target folder, and dispatches to
a platform-specific unpack handler.  We embed the module shallowly: pure string
computations become Lean functions; the effectful parts (`download_pandoc` and
the three `_handle_*` routines) become explicit state/trace passing over an
abstract environment that models the filesystem and subprocess outcomes.
-/

namespace PandocDownload

/-! ## Data model -/

/-- `os.path.join` of two components, with the Unix separator taken as the
abstract separator of the model. -/
def pjoin (a b : String) : String := a ++ "/" ++ b

/-- Python's `s.startswith(pre)`, computed on the character lists. -/
def startswith (s pre : String) : Bool := pre.data.isPrefixOf s.data

/-- Python's `url.split("/")[-1]`: the segment after the last `/` (the whole
string when no `/` occurs, empty on a trailing `/`), computed on the
character lists. -/
def url_basename (url : String) : String :=
  String.mk ((url.data.reverse.takeWhile (fun c => c != '/')).reverse)

/-- The module-level `DEFAULT_TARGET_FOLDER` dict, as an association list in
source order. -/
def DEFAULT_TARGET_FOLDER : List (String × String) :=
  [("win32", "~\\AppData\\Local\\Pandoc"),
   ("linux", "~/bin"),
   ("darwin", "~/Applications/pandoc")]

/-- `_get_pandoc_urls(version)`: a dict from platform key to download URL,
built by string concatenation exactly as in the source. -/
def _get_pandoc_urls (version : String) : List (String × String) :=
  let deb_subffix := "-1"
  let url_base := "https://github.com/jgm/pandoc/releases/download/" ++
    version ++ "/pandoc-" ++ version
  [("win32", url_base ++ "-windows.msi"),
   ("linux", url_base ++ deb_subffix ++ "-amd64.deb"),
   ("darwin", url_base ++ "-osx.pkg")]

/-- The mode computation of `_make_executable`: `mode |= (mode & 0o444) >> 2`
(copy R bits to X). -/
def _make_executable_mode (mode : Nat) : Nat :=
  mode ||| ((mode &&& 0o444) >>> 2)

/-! ## Effects and errors of `download_pandoc` -/

/-- Observable filesystem/network effects performed by `download_pandoc`, in
order of occurrence. -/
inductive Effect
  | download (url : String)
  | writeFile (name : String)
  | makedirs (dir : String)
  | unpackCall (handler : String) (filename : String) (targetfolder : String)
deriving DecidableEq, Repr

/-- Kinds of `OSError` that `os.makedirs` may raise. -/
inductive OSError
  | fileExists
  | permissionDenied
  | otherOS
deriving DecidableEq, Repr

/-- Python exceptions that can escape `download_pandoc` in the model. -/
inductive PyError
  | runtimeError (msg : String)
  | keyError
  | assertionError (msg : String)
deriving DecidableEq, Repr

deriving instance DecidableEq for Except

/-- The environment of one `download_pandoc` run: platform identification and
the filesystem answers the run observes. -/
structure Env where
  sysPlatform : String
  architecture : String
  isfile : String → Bool
  expanduser : String → String
  makedirsResult : String → Except OSError Unit

/-- The platform-key normalisation of the source: `if pf.startswith("linux"):
pf = "linux"`. -/
def norm_pf (pf : String) : String :=
  if startswith pf "linux" then "linux" else pf

/-- The `try: os.makedirs(...) / except OSError: pass` block: every `OSError`
is swallowed. -/
def makedirs_try (res : Except OSError Unit) : Except PyError Unit :=
  match res with
  | .ok _ => .ok ()
  | .error _ => .ok ()

/-- The `_handle_*` functions defined at module level (the possible results of
`globals().get("_handle_" + pf)`). -/
def module_handlers : List String :=
  ["_handle_linux", "_handle_darwin", "_handle_win32"]

/-- The tail of `download_pandoc` from the `os.makedirs` try block onwards:
create the target folder (errors swallowed), look up the handler, assert it
exists, and invoke it. -/
def download_pandoc_tail (pf filename targetfolder : String) (env : Env)
    (tr : List Effect) : List Effect × Except PyError Unit :=
  let tr := tr ++ [Effect.makedirs targetfolder]
  match makedirs_try (env.makedirsResult targetfolder) with
  | .error e => (tr, .error e)
  | .ok _ =>
    if module_handlers.contains ("_handle_" ++ pf) then
      (tr ++ [Effect.unpackCall ("_handle_" ++ pf) filename targetfolder], .ok ())
    else
      (tr, .error (.assertionError
        "Can't handle download, only Linux, Windows and OS X are supported."))

/-- The target-folder defaulting of `download_pandoc` (`targetfolder =
DEFAULT_TARGET_FOLDER[pf]` when the caller passed none, a `KeyError` escaping
on a missing key), `os.path.expanduser`, and the tail. -/
def download_pandoc_folder (env : Env) (pf filename : String)
    (tr1 : List Effect) (targetfolder? : Option String) :
    List Effect × Except PyError Unit :=
  match targetfolder? with
  | some t => download_pandoc_tail pf filename (env.expanduser t) env tr1
  | none =>
    match DEFAULT_TARGET_FOLDER.lookup pf with
    | none => (tr1, .error .keyError)
    | some d => download_pandoc_tail pf filename (env.expanduser d) env tr1

/-- The download step of `download_pandoc` for the resolved `url`: the
basename `url.split("/")[-1]` is reused when `os.path.isfile` reports it
present, otherwise one `urlopen` GET plus one file write happen. -/
def download_pandoc_fetch (env : Env) (pf url : String)
    (targetfolder? : Option String) : List Effect × Except PyError Unit :=
  download_pandoc_folder env pf (url_basename url)
    (if env.isfile (url_basename url) then []
     else [Effect.download url, Effect.writeFile (url_basename url)])
    targetfolder?

/-- `download_pandoc(url, targetfolder, version)`, as a trace of effects plus
a result.  Control flow mirrors the source line by line: version defaulting,
URL dict construction, linux key normalisation with the 64-bit check, the
platform membership check, URL defaulting, then the download, target folder
creation and unpack dispatch. -/
def download_pandoc (env : Env)
    (url? targetfolder? version? : Option String) :
    List Effect × Except PyError Unit :=
  if startswith env.sysPlatform "linux" && (env.architecture != "64bit") then
    ([], .error (.runtimeError "Linux pandoc is only compiled for 64bit."))
  else
    match (_get_pandoc_urls (version?.getD "1.19.1")).lookup
        (norm_pf env.sysPlatform) with
    | none =>
      ([], .error (.runtimeError
        "Can't handle your platform (only Linux, Mac OS X, Windows)."))
    | some platUrl =>
      download_pandoc_fetch env (norm_pf env.sysPlatform) (url?.getD platUrl)
        targetfolder?

/-- Recognizer for download effects in a trace. -/
def isDownload : Effect → Bool
  | .download _ => true
  | _ => false

/-! ## The platform unpack handlers

Each `_handle_*` routine is modelled as a computation over a small state:
whether the `tempfile.mkdtemp()` scratch directory still exists, which
destination files have been copied into the target folder, and which of them
were made executable.  The environment decides the outcome of every
`subprocess.check_call` and the existence of every `shutil.copyfile` source.
-/

/-- Environment of a handler run: the name `tempfile.mkdtemp()` returned,
subprocess outcomes, and source-file existence. -/
structure HandlerEnv where
  tempfolder : String
  check_call : List String → Bool
  isfile : String → Bool

/-- Exceptions a handler can raise: `subprocess.CalledProcessError` from
`check_call`, or `FileNotFoundError` from `shutil.copyfile`. -/
inductive UnpackError
  | calledProcessError (cmd : List String)
  | fileNotFoundError (src : String)
deriving DecidableEq, Repr

/-- State threaded through a handler run. -/
structure HState where
  tempExists : Bool
  target : List String
  executables : List String
deriving DecidableEq, Repr

/-- Sequencing with early exit on a raised exception, the state at the point
of the raise being preserved. -/
def hseq (x : HState × Except UnpackError Unit)
    (f : HState → HState × Except UnpackError Unit) :
    HState × Except UnpackError Unit :=
  match x with
  | (s, .ok _) => f s
  | (s, .error e) => (s, .error e)

/-- `subprocess.check_call(cmd)`: raises unless the environment reports a zero
exit status. -/
def check_call_step (env : HandlerEnv) (s : HState) (cmd : List String) :
    HState × Except UnpackError Unit :=
  if env.check_call cmd then (s, .ok ()) else (s, .error (.calledProcessError cmd))

/-- `shutil.copyfile(src, dst)` into the target folder: raises when the source
is missing, otherwise records the destination basename. -/
def copyfile_step (env : HandlerEnv) (s : HState) (src dstName : String) :
    HState × Except UnpackError Unit :=
  if env.isfile src then ({ s with target := s.target ++ [dstName] }, .ok ())
  else (s, .error (.fileNotFoundError src))

/-- `_make_executable(dst)`: records that the destination was made executable
(the mode arithmetic itself is `_make_executable_mode`). -/
def make_executable_step (s : HState) (dst : String) :
    HState × Except UnpackError Unit :=
  ({ s with executables := s.executables ++ [dst] }, .ok ())

/-- `_handle_linux`: `ar x` then `tar xzf data.tar.gz` in the scratch dir,
copy `pandoc` and `pandoc-citeproc` from `usr/bin` making each executable,
copy the Debian `copyright` file to `copyright.pandoc`; the scratch dir is
removed in a `finally` block, hence on every exit path. -/
def _handle_linux (env : HandlerEnv) (filename targetfolder : String) :
    HState × Except UnpackError Unit :=
  let tempfolder := env.tempfolder
  let s0 : HState := { tempExists := true, target := [], executables := [] }
  let body :=
    hseq (check_call_step env s0 ["ar", "x", filename]) (fun s1 =>
    hseq (check_call_step env s1 ["tar", "xzf", "data.tar.gz"]) (fun s2 =>
    hseq (copyfile_step env s2 (pjoin (pjoin (pjoin tempfolder "usr") "bin") "pandoc")
        "pandoc") (fun s3 =>
    hseq (make_executable_step s3 (pjoin targetfolder "pandoc")) (fun s4 =>
    hseq (copyfile_step env s4
        (pjoin (pjoin (pjoin tempfolder "usr") "bin") "pandoc-citeproc")
        "pandoc-citeproc") (fun s5 =>
    hseq (make_executable_step s5 (pjoin targetfolder "pandoc-citeproc")) (fun s6 =>
    copyfile_step env s6
      (pjoin (pjoin (pjoin (pjoin (pjoin tempfolder "usr") "share") "doc") "pandoc")
        "copyright")
      "copyright.pandoc"))))))
  ({ body.1 with tempExists := false }, body.2)

/-- `_handle_darwin`: `pkgutil --expand` then `tar xvf .../Payload`, copy
`pandoc` and `pandoc-citeproc` from `usr/local/bin` making each executable;
`shutil.rmtree` runs only at the end of the straight-line body, so the scratch
dir is removed only when no step raised. -/
def _handle_darwin (env : HandlerEnv) (filename targetfolder : String) :
    HState × Except UnpackError Unit :=
  let tempfolder := env.tempfolder
  let pkgutilfolder := pjoin tempfolder "tmp"
  let s0 : HState := { tempExists := true, target := [], executables := [] }
  let body :=
    hseq (check_call_step env s0 ["pkgutil", "--expand", filename, pkgutilfolder]) (fun s1 =>
    hseq (check_call_step env s1
        ["tar", "xvf", pjoin (pjoin pkgutilfolder "pandoc.pkg") "Payload",
         "-C", pkgutilfolder]) (fun s2 =>
    hseq (copyfile_step env s2
        (pjoin (pjoin (pjoin (pjoin pkgutilfolder "usr") "local") "bin") "pandoc")
        "pandoc") (fun s3 =>
    hseq (make_executable_step s3 (pjoin targetfolder "pandoc")) (fun s4 =>
    hseq (copyfile_step env s4
        (pjoin (pjoin (pjoin (pjoin pkgutilfolder "usr") "local") "bin") "pandoc-citeproc")
        "pandoc-citeproc") (fun s5 =>
    make_executable_step s5 (pjoin targetfolder "pandoc-citeproc"))))))
  match body with
  | (s, .ok _) => ({ s with tempExists := false }, .ok ())
  | (s, .error e) => (s, .error e)

/-- `_handle_win32`: `msiexec /a ... TARGETDIR=tempfolder`, copy `pandoc.exe`,
`pandoc-citeproc.exe` and `COPYRIGHT.txt` from the `Pandoc` subfolder (no
executable bit handling); `shutil.rmtree` again runs only on the success
path. -/
def _handle_win32 (env : HandlerEnv) (filename targetfolder : String) :
    HState × Except UnpackError Unit :=
  let tempfolder := env.tempfolder
  let s0 : HState := { tempExists := true, target := [], executables := [] }
  let body :=
    hseq (check_call_step env s0
        ["msiexec", "/a", filename, "/qb", "TARGETDIR=" ++ tempfolder]) (fun s1 =>
    hseq (copyfile_step env s1 (pjoin (pjoin tempfolder "Pandoc") "pandoc.exe")
        "pandoc.exe") (fun s2 =>
    hseq (copyfile_step env s2 (pjoin (pjoin tempfolder "Pandoc") "pandoc-citeproc.exe")
        "pandoc-citeproc.exe") (fun s3 =>
    copyfile_step env s3 (pjoin (pjoin tempfolder "Pandoc") "COPYRIGHT.txt")
      "COPYRIGHT.txt")))
  match body with
  | (s, .ok _) => ({ s with tempExists := false }, .ok ())
  | (s, .error e) => (s, .error e)

/-! ## Concrete environments for witnesses and counterexamples -/

/-- A handler environment in which every subprocess succeeds and every copy
source exists. -/
def allOkHandlerEnv : HandlerEnv :=
  { tempfolder := "/tmp/scratch", check_call := fun _ => true, isfile := fun _ => true }

/-- A handler environment in which every subprocess exits non-zero. -/
def failingCmdHandlerEnv : HandlerEnv :=
  { tempfolder := "/tmp/scratch", check_call := fun _ => false, isfile := fun _ => true }

/-- A 64-bit machine reporting `sys.platform == "linux2"` (Python 2 style),
with no cached archive. -/
def linux2Env : Env :=
  { sysPlatform := "linux2", architecture := "64bit", isfile := fun _ => false,
    expanduser := fun s => s, makedirsResult := fun _ => .ok () }

/-- A machine with an unrecognized platform key. -/
def freebsdEnv : Env :=
  { sysPlatform := "freebsd", architecture := "64bit", isfile := fun _ => false,
    expanduser := fun s => s, makedirsResult := fun _ => .ok () }

/-- A darwin machine with the archive already cached. -/
def darwinCachedEnv : Env :=
  { sysPlatform := "darwin", architecture := "64bit", isfile := fun _ => true,
    expanduser := fun s => s, makedirsResult := fun _ => .ok () }

/-- A 32-bit linux machine. -/
def linux32Env : Env :=
  { sysPlatform := "linux", architecture := "32bit", isfile := fun _ => false,
    expanduser := fun s => s, makedirsResult := fun _ => .ok () }

/-- A darwin machine on which `os.makedirs` raises `FileExistsError`. -/
def darwinDirExistsEnv : Env :=
  { sysPlatform := "darwin", architecture := "64bit", isfile := fun _ => true,
    expanduser := fun s => s, makedirsResult := fun _ => .error .fileExists }

/-- A darwin machine on which `os.makedirs` raises `PermissionError`. -/
def darwinDirPermEnv : Env :=
  { sysPlatform := "darwin", architecture := "64bit", isfile := fun _ => true,
    expanduser := fun s => s, makedirsResult := fun _ => .error .permissionDenied }

/-! ## Theorems -/

/-- Keys of the URL dict: a successful lookup pins the platform key to one of
the three supported ones. -/
theorem urls_keys (v p u : String)
    (h : (_get_pandoc_urls v).lookup p = some u) :
    p = "win32" ∨ p = "linux" ∨ p = "darwin" := by
  by_cases h1 : p = "win32"
  · exact Or.inl h1
  by_cases h2 : p = "linux"
  · exact Or.inr (Or.inl h2)
  by_cases h3 : p = "darwin"
  · exact Or.inr (Or.inr h3)
  exfalso
  have e1 : (p == "win32") = false := by simp [h1]
  have e2 : (p == "linux") = false := by simp [h2]
  have e3 : (p == "darwin") = false := by simp [h3]
  simp only [_get_pandoc_urls, List.lookup] at h
  rw [e1, e2, e3] at h
  simp at h

/-- The tail of `download_pandoc` on a platform whose handler exists: the
makedirs effect is recorded (its `OSError` swallowed either way) and the
unpack handler is invoked. -/
theorem tail_eq (pf filename T : String) (env : Env) (tr : List Effect)
    (hh : ("_handle_" ++ pf) ∈ module_handlers) :
    download_pandoc_tail pf filename T env tr =
      (tr ++ [Effect.makedirs T, Effect.unpackCall ("_handle_" ++ pf) filename T],
       Except.ok ()) := by
  unfold download_pandoc_tail
  cases hmk : env.makedirsResult T <;> simp [makedirs_try, hmk, hh]

/-- The guard of the 64-bit check is false whenever linux platforms report a
64-bit architecture. -/
theorem arch_cond_false (env : Env)
    (harch : startswith env.sysPlatform "linux" = true → env.architecture = "64bit") :
    (startswith env.sysPlatform "linux" && (env.architecture != "64bit")) = false := by
  cases hs : startswith env.sysPlatform "linux"
  · simp
  · simp [harch hs]

/-- Closed form of a full `download_pandoc` run on a supported platform. -/
theorem download_pandoc_supported_eq (env : Env) (url? tf? v? : Option String)
    (platUrl dflt : String)
    (harch : startswith env.sysPlatform "linux" = true → env.architecture = "64bit")
    (hurl : (_get_pandoc_urls (v?.getD "1.19.1")).lookup (norm_pf env.sysPlatform) =
      some platUrl)
    (hdflt : DEFAULT_TARGET_FOLDER.lookup (norm_pf env.sysPlatform) = some dflt)
    (hh : ("_handle_" ++ norm_pf env.sysPlatform) ∈ module_handlers) :
    download_pandoc env url? tf? v? =
      ((if env.isfile (url_basename (url?.getD platUrl)) then ([] : List Effect)
        else [Effect.download (url?.getD platUrl),
              Effect.writeFile (url_basename (url?.getD platUrl))]) ++
       [Effect.makedirs (env.expanduser (tf?.getD dflt)),
        Effect.unpackCall ("_handle_" ++ norm_pf env.sysPlatform)
          (url_basename (url?.getD platUrl))
          (env.expanduser (tf?.getD dflt))], Except.ok ()) := by
  unfold download_pandoc
  rw [arch_cond_false env harch, hurl]
  simp only [Bool.false_eq_true, if_false]
  unfold download_pandoc_fetch download_pandoc_folder
  cases tf? with
  | some t =>
    simp only [Option.getD]
    rw [tail_eq _ _ _ _ _ hh]
  | none =>
    simp only [Option.getD, hdflt]
    rw [tail_eq _ _ _ _ _ hh]

/-- A run on a platform key the module does not know (no linux prefix, not
win32, not darwin) raises the unsupported-platform `RuntimeError` with an
empty effect trace. -/
theorem download_pandoc_unsupported_eq (env : Env) (url? tf? v? : Option String)
    (hnl : startswith env.sysPlatform "linux" = false)
    (hns : env.sysPlatform ≠ "win32") (hnd : env.sysPlatform ≠ "darwin") :
    download_pandoc env url? tf? v? =
      ([], Except.error (PyError.runtimeError
        "Can't handle your platform (only Linux, Mac OS X, Windows).")) := by
  have hnlx : env.sysPlatform ≠ "linux" := by
    intro h
    rw [h] at hnl
    exact absurd hnl (by decide)
  have hpf : norm_pf env.sysPlatform = env.sysPlatform := by
    simp [norm_pf, hnl]
  have e1 : (env.sysPlatform == "win32") = false := by simp [hns]
  have e2 : (env.sysPlatform == "linux") = false := by simp [hnlx]
  have e3 : (env.sysPlatform == "darwin") = false := by simp [hnd]
  have hlook : (_get_pandoc_urls (v?.getD "1.19.1")).lookup (norm_pf env.sysPlatform) =
      none := by
    rw [hpf]
    simp only [_get_pandoc_urls, List.lookup]
    rw [e1, e2, e3]
  have hcond : (startswith env.sysPlatform "linux" && (env.architecture != "64bit")) =
      false := by
    rw [hnl]
    simp
  unfold download_pandoc
  rw [hcond, hlook]
  simp only [Bool.false_eq_true, if_false]

/-- `_handle_linux` removes its scratch directory on every exit path: the
`finally` block runs unconditionally. -/
theorem linux_temp_always (env : HandlerEnv) (f t : String) :
    (_handle_linux env f t).1.tempExists = false := rfl

/-- A successful `_handle_linux` run copied exactly the two executables and
the copyright file into the target folder. -/
theorem linux_ok_target (env : HandlerEnv) (f t : String)
    (h : (_handle_linux env f t).2 = Except.ok ()) :
    (_handle_linux env f t).1.target = ["pandoc", "pandoc-citeproc", "copyright.pandoc"] := by
  cases hb1 : env.check_call ["ar", "x", f] <;>
  cases hb2 : env.check_call ["tar", "xzf", "data.tar.gz"] <;>
  cases hb3 : env.isfile (pjoin (pjoin (pjoin env.tempfolder "usr") "bin") "pandoc") <;>
  cases hb4 : env.isfile (pjoin (pjoin (pjoin env.tempfolder "usr") "bin") "pandoc-citeproc") <;>
  cases hb5 : env.isfile (pjoin (pjoin (pjoin (pjoin (pjoin env.tempfolder "usr") "share") "doc") "pandoc") "copyright") <;>
    simp_all [_handle_linux, hseq, check_call_step, copyfile_step, make_executable_step]

/-- A successful `_handle_darwin` run copied exactly the two executables (and
nothing else) and removed its scratch directory. -/
theorem darwin_ok_run (env : HandlerEnv) (f t : String)
    (h : (_handle_darwin env f t).2 = Except.ok ()) :
    (_handle_darwin env f t).1.target = ["pandoc", "pandoc-citeproc"] ∧
    (_handle_darwin env f t).1.tempExists = false := by
  cases hb1 : env.check_call ["pkgutil", "--expand", f, pjoin env.tempfolder "tmp"] <;>
  cases hb2 : env.check_call ["tar", "xvf", pjoin (pjoin (pjoin env.tempfolder "tmp") "pandoc.pkg") "Payload", "-C", pjoin env.tempfolder "tmp"] <;>
  cases hb3 : env.isfile (pjoin (pjoin (pjoin (pjoin (pjoin env.tempfolder "tmp") "usr") "local") "bin") "pandoc") <;>
  cases hb4 : env.isfile (pjoin (pjoin (pjoin (pjoin (pjoin env.tempfolder "tmp") "usr") "local") "bin") "pandoc-citeproc") <;>
    simp_all [_handle_darwin, hseq, check_call_step, copyfile_step, make_executable_step]

/-- A successful `_handle_win32` run copied the two executables and the
copyright file and removed its scratch directory. -/
theorem win32_ok_run (env : HandlerEnv) (f t : String)
    (h : (_handle_win32 env f t).2 = Except.ok ()) :
    (_handle_win32 env f t).1.target = ["pandoc.exe", "pandoc-citeproc.exe", "COPYRIGHT.txt"] ∧
    (_handle_win32 env f t).1.tempExists = false := by
  cases hb1 : env.check_call ["msiexec", "/a", f, "/qb", "TARGETDIR=" ++ env.tempfolder] <;>
  cases hb2 : env.isfile (pjoin (pjoin env.tempfolder "Pandoc") "pandoc.exe") <;>
  cases hb3 : env.isfile (pjoin (pjoin env.tempfolder "Pandoc") "pandoc-citeproc.exe") <;>
  cases hb4 : env.isfile (pjoin (pjoin env.tempfolder "Pandoc") "COPYRIGHT.txt") <;>
    simp_all [_handle_win32, hseq, check_call_step, copyfile_step, make_executable_step]

/-- The win32 entry of the URL dict, in closed form. -/
theorem urls_win32 (V : String) :
    (_get_pandoc_urls V).lookup "win32" =
      some ("https://github.com/jgm/pandoc/releases/download/" ++ V ++
        "/pandoc-" ++ V ++ "-windows.msi") := rfl

/-- The linux entry of the URL dict, in closed form. -/
theorem urls_linux (V : String) :
    (_get_pandoc_urls V).lookup "linux" =
      some ("https://github.com/jgm/pandoc/releases/download/" ++ V ++
        "/pandoc-" ++ V ++ "-1-amd64.deb") := by
  have hraw : (_get_pandoc_urls V).lookup "linux" =
      some ("https://github.com/jgm/pandoc/releases/download/" ++ V ++
        "/pandoc-" ++ V ++ "-1" ++ "-amd64.deb") := rfl
  rw [String.append_assoc] at hraw
  exact hraw

/-- The darwin entry of the URL dict, in closed form. -/
theorem urls_darwin (V : String) :
    (_get_pandoc_urls V).lookup "darwin" =
      some ("https://github.com/jgm/pandoc/releases/download/" ++ V ++
        "/pandoc-" ++ V ++ "-osx.pkg") := rfl

/-- C1: for every version string `V`, `_get_pandoc_urls V` maps each supported
platform to a URL that is exactly the fixed release base path followed by `V`
(directory segment), `/pandoc-`, `V` again (filename segment), and the
platform-correct suffix; each URL therefore begins with the base path, contains
`V` twice, and ends with `.msi` / `-1-amd64.deb` / `.pkg` respectively; and for
`V = "1.19.1"` the linux URL is the expected concrete string. -/
theorem get_pandoc_urls_spec (V : String) :
    ((_get_pandoc_urls V).lookup "win32" =
      some ("https://github.com/jgm/pandoc/releases/download/" ++ V ++
        "/pandoc-" ++ V ++ "-windows.msi")) ∧
    ((_get_pandoc_urls V).lookup "linux" =
      some ("https://github.com/jgm/pandoc/releases/download/" ++ V ++
        "/pandoc-" ++ V ++ "-1-amd64.deb")) ∧
    ((_get_pandoc_urls V).lookup "darwin" =
      some ("https://github.com/jgm/pandoc/releases/download/" ++ V ++
        "/pandoc-" ++ V ++ "-osx.pkg")) ∧
    (∃ r, (_get_pandoc_urls V).lookup "win32" =
      some ("https://github.com/jgm/pandoc/releases/download/" ++ r)) ∧
    (∃ r, (_get_pandoc_urls V).lookup "linux" =
      some ("https://github.com/jgm/pandoc/releases/download/" ++ r)) ∧
    (∃ r, (_get_pandoc_urls V).lookup "darwin" =
      some ("https://github.com/jgm/pandoc/releases/download/" ++ r)) ∧
    (∃ s, (_get_pandoc_urls V).lookup "win32" = some (s ++ ".msi")) ∧
    (∃ s, (_get_pandoc_urls V).lookup "linux" = some (s ++ "-1-amd64.deb")) ∧
    (∃ s, (_get_pandoc_urls V).lookup "darwin" = some (s ++ ".pkg")) ∧
    ((_get_pandoc_urls "1.19.1").lookup "linux" =
      some "https://github.com/jgm/pandoc/releases/download/1.19.1/pandoc-1.19.1-1-amd64.deb") := by
  refine ⟨urls_win32 V, urls_linux V, urls_darwin V, ?_, ?_, ?_, ?_, ?_, ?_, rfl⟩
  · exact ⟨V ++ "/pandoc-" ++ V ++ "-windows.msi",
      by rw [urls_win32]; simp [String.append_assoc]⟩
  · exact ⟨V ++ "/pandoc-" ++ V ++ "-1-amd64.deb",
      by rw [urls_linux]; simp [String.append_assoc]⟩
  · exact ⟨V ++ "/pandoc-" ++ V ++ "-osx.pkg",
      by rw [urls_darwin]; simp [String.append_assoc]⟩
  · exact ⟨"https://github.com/jgm/pandoc/releases/download/" ++ V ++
      "/pandoc-" ++ V ++ "-windows",
      by rw [urls_win32, show ("-windows.msi" : String) = "-windows" ++ ".msi" from rfl,
        ← String.append_assoc]⟩
  · exact ⟨"https://github.com/jgm/pandoc/releases/download/" ++ V ++ "/pandoc-" ++ V,
      urls_linux V⟩
  · exact ⟨"https://github.com/jgm/pandoc/releases/download/" ++ V ++
      "/pandoc-" ++ V ++ "-osx",
      by rw [urls_darwin, show ("-osx.pkg" : String) = "-osx" ++ ".pkg" from rfl,
        ← String.append_assoc]⟩

/-- Bits of the octal mask `0o444 = 292`: exactly the three read-permission
bit positions 2, 5 and 8. -/
theorem testBit_0o444 (j : Nat) :
    Nat.testBit 292 j = (decide (j = 2) || decide (j = 5) || decide (j = 8)) := by
  rcases Nat.lt_or_ge j 9 with h | h
  · interval_cases j <;> decide
  · rw [Nat.testBit_eq_false_of_lt
      (lt_of_lt_of_le (by norm_num) (Nat.pow_le_pow_right (by norm_num) h))]
    have h2 : j ≠ 2 := by omega
    have h5 : j ≠ 5 := by omega
    have h8 : j ≠ 8 := by omega
    simp [h2, h5, h8]

/-- C7: the mode computed by `_make_executable`, characterised bit by bit.
The execute bit of each principal (owner: bit 6, group: bit 3, other: bit 0)
becomes the old execute bit OR-ed with that principal's read bit (bits 8, 5, 2
respectively), and every other bit is unchanged.  Hence every principal with
read gains execute, and no other permission bits change. -/
theorem make_executable_mode_testBit (m i : Nat) :
    (_make_executable_mode m).testBit i =
      (m.testBit i || (decide (i = 6) && m.testBit 8)
        || (decide (i = 3) && m.testBit 5) || (decide (i = 0) && m.testBit 2)) := by
  have base : (_make_executable_mode m).testBit i =
      (m.testBit i || (m.testBit (2 + i) && Nat.testBit 292 (2 + i))) := by
    simp [_make_executable_mode, Nat.testBit_or, Nat.testBit_and, Nat.testBit_shiftRight]
  rw [base, testBit_0o444]
  by_cases h0 : i = 0
  · subst h0
    cases hb : m.testBit 0 <;> cases hc : m.testBit 2 <;> simp
  · by_cases h3 : i = 3
    · subst h3
      cases hb : m.testBit 3 <;> cases hc : m.testBit 5 <;> simp
    · by_cases h6 : i = 6
      · subst h6
        cases hb : m.testBit 6 <;> cases hc : m.testBit 8 <;> simp
      · have a2 : 2 + i ≠ 2 := by omega
        have a5 : 2 + i ≠ 5 := by omega
        have a8 : 2 + i ≠ 8 := by omega
        simp [a2, a5, a8, h0, h3, h6]


/-- C2 (amended): after each handler completes successfully, the target folder
received: on linux the two executables and the `copyright.pandoc` artifact; on
win32 the two executables and `COPYRIGHT.txt`; on darwin only the two
executables — no copyright/license artifact is copied there. -/
theorem unpack_success_contents (env : HandlerEnv) (filename targetfolder : String)
    (hl : (_handle_linux env filename targetfolder).2 = Except.ok ())
    (hd : (_handle_darwin env filename targetfolder).2 = Except.ok ())
    (hw : (_handle_win32 env filename targetfolder).2 = Except.ok ()) :
    (_handle_linux env filename targetfolder).1.target =
      ["pandoc", "pandoc-citeproc", "copyright.pandoc"] ∧
    (_handle_darwin env filename targetfolder).1.target = ["pandoc", "pandoc-citeproc"] ∧
    (_handle_win32 env filename targetfolder).1.target =
      ["pandoc.exe", "pandoc-citeproc.exe", "COPYRIGHT.txt"] :=
  ⟨linux_ok_target env filename targetfolder hl, (darwin_ok_run env filename targetfolder hd).1,
   (win32_ok_run env filename targetfolder hw).1⟩

/-- Witness for C2 (amended) at an all-success environment. -/
theorem unpack_success_contents_witness :
    (_handle_linux allOkHandlerEnv "pandoc-1.19.1-1-amd64.deb" "/home/u/bin").1.target =
      ["pandoc", "pandoc-citeproc", "copyright.pandoc"] ∧
    (_handle_darwin allOkHandlerEnv "pandoc-1.19.1-1-amd64.deb" "/home/u/bin").1.target =
      ["pandoc", "pandoc-citeproc"] ∧
    (_handle_win32 allOkHandlerEnv "pandoc-1.19.1-1-amd64.deb" "/home/u/bin").1.target =
      ["pandoc.exe", "pandoc-citeproc.exe", "COPYRIGHT.txt"] :=
  unpack_success_contents allOkHandlerEnv "pandoc-1.19.1-1-amd64.deb" "/home/u/bin"
    (by decide) (by decide) (by decide)

/-- C2 counterexample: on darwin the unpack succeeds but the target folder
receives exactly the two executables and no copyright/license artifact. -/
theorem darwin_no_copyright :
    (_handle_darwin allOkHandlerEnv "pandoc-1.19.1-osx.pkg" "/home/u/Applications/pandoc").2 =
      Except.ok () ∧
    (_handle_darwin allOkHandlerEnv "pandoc-1.19.1-osx.pkg" "/home/u/Applications/pandoc").1.target =
      ["pandoc", "pandoc-citeproc"] ∧
    "copyright.pandoc" ∉
      (_handle_darwin allOkHandlerEnv "pandoc-1.19.1-osx.pkg" "/home/u/Applications/pandoc").1.target ∧
    "COPYRIGHT.txt" ∉
      (_handle_darwin allOkHandlerEnv "pandoc-1.19.1-osx.pkg" "/home/u/Applications/pandoc").1.target := by
  decide

/-- C3 (amended): `_handle_linux` removes its scratch directory on every exit
path (try/finally); `_handle_darwin` and `_handle_win32` remove it on their
successful runs. -/
theorem scratch_dir_cleanup (env : HandlerEnv) (f t : String)
    (hd : (_handle_darwin env f t).2 = Except.ok ())
    (hw : (_handle_win32 env f t).2 = Except.ok ()) :
    (_handle_linux env f t).1.tempExists = false ∧
    (_handle_darwin env f t).1.tempExists = false ∧
    (_handle_win32 env f t).1.tempExists = false :=
  ⟨linux_temp_always env f t, (darwin_ok_run env f t hd).2, (win32_ok_run env f t hw).2⟩

/-- Witness for C3 (amended) at an all-success environment. -/
theorem scratch_dir_cleanup_witness :
    (_handle_linux allOkHandlerEnv "f.pkg" "/t").1.tempExists = false ∧
    (_handle_darwin allOkHandlerEnv "f.pkg" "/t").1.tempExists = false ∧
    (_handle_win32 allOkHandlerEnv "f.pkg" "/t").1.tempExists = false :=
  scratch_dir_cleanup allOkHandlerEnv "f.pkg" "/t" (by decide) (by decide)

/-- C3 counterexample: when the first extraction subprocess of
`_handle_darwin` raises, the routine exits with the error and the scratch
directory still exists (no try/finally in this variant). -/
theorem darwin_leaks_scratch_on_error :
    (_handle_darwin failingCmdHandlerEnv "pandoc-1.19.1-osx.pkg" "/target").2 ≠
      Except.ok () ∧
    (_handle_darwin failingCmdHandlerEnv "pandoc-1.19.1-osx.pkg" "/target").1.tempExists =
      true := by
  decide

/-- C4: on a supported platform, when a file named like the resolved URL's
basename is already present, the run performs no download; otherwise it
performs exactly one GET of the resolved URL and writes the body to that
basename. -/
theorem download_cached_or_single_get (env : Env) (url? tf? v? : Option String)
    (platUrl : String)
    (harch : startswith env.sysPlatform "linux" = true → env.architecture = "64bit")
    (hurl : (_get_pandoc_urls (v?.getD "1.19.1")).lookup (norm_pf env.sysPlatform) =
      some platUrl) :
    (env.isfile (url_basename (url?.getD platUrl)) = true →
      (download_pandoc env url? tf? v?).1.filter isDownload = []) ∧
    (env.isfile (url_basename (url?.getD platUrl)) = false →
      (download_pandoc env url? tf? v?).1.filter isDownload =
        [Effect.download (url?.getD platUrl)] ∧
      Effect.writeFile (url_basename (url?.getD platUrl)) ∈
        (download_pandoc env url? tf? v?).1) := by
  have hkey := urls_keys _ _ _ hurl
  have hdflt : ∃ d, DEFAULT_TARGET_FOLDER.lookup (norm_pf env.sysPlatform) = some d := by
    rcases hkey with h | h | h <;> rw [h] <;> exact ⟨_, rfl⟩
  obtain ⟨dflt, hdflt⟩ := hdflt
  have hh : ("_handle_" ++ norm_pf env.sysPlatform) ∈ module_handlers := by
    rcases hkey with h | h | h <;> rw [h] <;> decide
  rw [download_pandoc_supported_eq env url? tf? v? platUrl dflt harch hurl hdflt hh]
  constructor
  · intro hf
    simp [hf, isDownload]
  · intro hf
    simp [hf, isDownload]

/-- Witness for C4 on darwin with the archive already cached. -/
theorem download_cached_or_single_get_witness :
    (darwinCachedEnv.isfile (url_basename ((none : Option String).getD
        "https://github.com/jgm/pandoc/releases/download/1.19.1/pandoc-1.19.1-osx.pkg")) = true →
      (download_pandoc darwinCachedEnv none none none).1.filter isDownload = []) ∧
    (darwinCachedEnv.isfile (url_basename ((none : Option String).getD
        "https://github.com/jgm/pandoc/releases/download/1.19.1/pandoc-1.19.1-osx.pkg")) = false →
      (download_pandoc darwinCachedEnv none none none).1.filter isDownload =
        [Effect.download ((none : Option String).getD
          "https://github.com/jgm/pandoc/releases/download/1.19.1/pandoc-1.19.1-osx.pkg")] ∧
      Effect.writeFile (url_basename ((none : Option String).getD
          "https://github.com/jgm/pandoc/releases/download/1.19.1/pandoc-1.19.1-osx.pkg")) ∈
        (download_pandoc darwinCachedEnv none none none).1) :=
  download_cached_or_single_get darwinCachedEnv none none none
    "https://github.com/jgm/pandoc/releases/download/1.19.1/pandoc-1.19.1-osx.pkg"
    (fun _ => rfl) (by decide)

/-- C5 (amended): on a platform key that does not begin with `linux` and is
neither `win32` nor `darwin`, `download_pandoc` raises the fatal
unsupported-platform `RuntimeError` with an empty effect trace: no download
and no filesystem mutation happen. -/
theorem unsupported_platform_aborts (env : Env) (url? tf? v? : Option String)
    (hnl : startswith env.sysPlatform "linux" = false)
    (hns : env.sysPlatform ≠ "win32") (hnd : env.sysPlatform ≠ "darwin") :
    download_pandoc env url? tf? v? =
      ([], Except.error (PyError.runtimeError
        "Can't handle your platform (only Linux, Mac OS X, Windows).")) :=
  download_pandoc_unsupported_eq env url? tf? v? hnl hns hnd

/-- Witness for C5 (amended) on an unrecognized platform key. -/
theorem unsupported_platform_aborts_witness :
    download_pandoc freebsdEnv none none none =
      ([], Except.error (PyError.runtimeError
        "Can't handle your platform (only Linux, Mac OS X, Windows).")) :=
  unsupported_platform_aborts freebsdEnv none none none (by decide) (by decide) (by decide)

/-- C5 counterexample: `"linux2"` is a platform key outside
`{win32, linux, darwin}`, yet on a 64-bit machine `download_pandoc` raises no
error and performs a download — the claim's set omits the `linux` prefix
normalisation. -/
theorem linux2_platform_not_aborted :
    (("linux2" : String) ≠ "win32" ∧ ("linux2" : String) ≠ "linux" ∧
      ("linux2" : String) ≠ "darwin") ∧
    (download_pandoc linux2Env none none none).2 = Except.ok () ∧
    (download_pandoc linux2Env none none none).1.filter isDownload ≠ [] := by
  decide

/-- C6: on a linux platform whose architecture is not 64-bit,
`download_pandoc` raises the `RuntimeError` with an empty effect trace, hence
before any download. -/
theorem linux_32bit_aborts (env : Env) (url? tf? v? : Option String)
    (hl : startswith env.sysPlatform "linux" = true)
    (ha : env.architecture ≠ "64bit") :
    download_pandoc env url? tf? v? =
      ([], Except.error (PyError.runtimeError
        "Linux pandoc is only compiled for 64bit.")) := by
  unfold download_pandoc
  rw [hl]
  have hb : (env.architecture != "64bit") = true := by simp [ha]
  rw [hb]
  simp

/-- Witness for C6 on a 32-bit linux machine. -/
theorem linux_32bit_aborts_witness :
    download_pandoc linux32Env none none none =
      ([], Except.error (PyError.runtimeError
        "Linux pandoc is only compiled for 64bit.")) :=
  linux_32bit_aborts linux32Env none none none (by decide) (by decide)

/-- C8: when `os.makedirs` on the target folder raises `FileExistsError`
(the folder already exists), the creation step does not fail the run: the run
still completes and dispatches to the unpack handler. -/
theorem makedirs_existing_folder_ok (env : Env) (url? tf? v? : Option String)
    (platUrl : String)
    (harch : startswith env.sysPlatform "linux" = true → env.architecture = "64bit")
    (hurl : (_get_pandoc_urls (v?.getD "1.19.1")).lookup (norm_pf env.sysPlatform) =
      some platUrl)
    (hmk : ∀ d, env.makedirsResult d = Except.error OSError.fileExists) :
    (download_pandoc env url? tf? v?).2 = Except.ok () ∧
    ∃ f t, Effect.unpackCall ("_handle_" ++ norm_pf env.sysPlatform) f t ∈
      (download_pandoc env url? tf? v?).1 := by
  have hkey := urls_keys _ _ _ hurl
  have hdflt : ∃ d, DEFAULT_TARGET_FOLDER.lookup (norm_pf env.sysPlatform) = some d := by
    rcases hkey with h | h | h <;> rw [h] <;> exact ⟨_, rfl⟩
  obtain ⟨dflt, hdflt⟩ := hdflt
  have hh : ("_handle_" ++ norm_pf env.sysPlatform) ∈ module_handlers := by
    rcases hkey with h | h | h <;> rw [h] <;> decide
  rw [download_pandoc_supported_eq env url? tf? v? platUrl dflt harch hurl hdflt hh]
  refine ⟨rfl, url_basename (url?.getD platUrl), env.expanduser (tf?.getD dflt), ?_⟩
  simp

/-- Witness for C8 on darwin with the target folder already existing. -/
theorem makedirs_existing_folder_ok_witness :
    (download_pandoc darwinDirExistsEnv none none none).2 = Except.ok () ∧
    ∃ f t, Effect.unpackCall ("_handle_" ++ norm_pf darwinDirExistsEnv.sysPlatform) f t ∈
      (download_pandoc darwinDirExistsEnv none none none).1 :=
  makedirs_existing_folder_ok darwinDirExistsEnv none none none
    "https://github.com/jgm/pandoc/releases/download/1.19.1/pandoc-1.19.1-osx.pkg"
    (fun _ => rfl) (by decide) (fun _ => rfl)

/-- C10: the makedirs try/except swallows every `OSError`, not only
`FileExistsError`: for any `OSError` (permission denied included) the step
raises nothing and the run continues to the unpack dispatch. -/
theorem makedirs_any_oserror_suppressed (env : Env) (url? tf? v? : Option String)
    (platUrl : String) (e : OSError)
    (harch : startswith env.sysPlatform "linux" = true → env.architecture = "64bit")
    (hurl : (_get_pandoc_urls (v?.getD "1.19.1")).lookup (norm_pf env.sysPlatform) =
      some platUrl)
    (hmk : ∀ d, env.makedirsResult d = Except.error e) :
    makedirs_try (Except.error e) = Except.ok () ∧
    (download_pandoc env url? tf? v?).2 = Except.ok () ∧
    ∃ f t, Effect.unpackCall ("_handle_" ++ norm_pf env.sysPlatform) f t ∈
      (download_pandoc env url? tf? v?).1 := by
  have hkey := urls_keys _ _ _ hurl
  have hdflt : ∃ d, DEFAULT_TARGET_FOLDER.lookup (norm_pf env.sysPlatform) = some d := by
    rcases hkey with h | h | h <;> rw [h] <;> exact ⟨_, rfl⟩
  obtain ⟨dflt, hdflt⟩ := hdflt
  have hh : ("_handle_" ++ norm_pf env.sysPlatform) ∈ module_handlers := by
    rcases hkey with h | h | h <;> rw [h] <;> decide
  rw [download_pandoc_supported_eq env url? tf? v? platUrl dflt harch hurl hdflt hh]
  refine ⟨rfl, rfl, url_basename (url?.getD platUrl), env.expanduser (tf?.getD dflt), ?_⟩
  simp

/-- Witness for C10 on darwin with makedirs failing with permission denied. -/
theorem makedirs_any_oserror_suppressed_witness :
    makedirs_try (Except.error OSError.permissionDenied) = Except.ok () ∧
    (download_pandoc darwinDirPermEnv none none none).2 = Except.ok () ∧
    ∃ f t, Effect.unpackCall ("_handle_" ++ norm_pf darwinDirPermEnv.sysPlatform) f t ∈
      (download_pandoc darwinDirPermEnv none none none).1 :=
  makedirs_any_oserror_suppressed darwinDirPermEnv none none none
    "https://github.com/jgm/pandoc/releases/download/1.19.1/pandoc-1.19.1-osx.pkg"
    OSError.permissionDenied (fun _ => rfl) (by decide) (fun _ => rfl)

/-- C9: the platform check precedes any use of a caller-supplied URL: on an
unsupported platform key the unsupported-platform `RuntimeError` is raised
even with an explicit URL, whose value never enters the (empty) effect
trace. -/
theorem explicit_url_no_platform_bypass (env : Env) (u : String) (tf? v? : Option String)
    (hnl : startswith env.sysPlatform "linux" = false)
    (hns : env.sysPlatform ≠ "win32") (hnd : env.sysPlatform ≠ "darwin") :
    download_pandoc env (some u) tf? v? =
      ([], Except.error (PyError.runtimeError
        "Can't handle your platform (only Linux, Mac OS X, Windows).")) :=
  download_pandoc_unsupported_eq env (some u) tf? v? hnl hns hnd

/-- Witness for C9: explicit URL on an unrecognized platform key. -/
theorem explicit_url_no_platform_bypass_witness :
    download_pandoc freebsdEnv (some "https://example.com/custom-pandoc.deb") none none =
      ([], Except.error (PyError.runtimeError
        "Can't handle your platform (only Linux, Mac OS X, Windows).")) :=
  explicit_url_no_platform_bypass freebsdEnv "https://example.com/custom-pandoc.deb"
    none none (by decide) (by decide) (by decide)

end PandocDownload
